import Mathlib

/-!
Verification of the EasyProspector "Model & Synthesis Configuration Engine":
a shallow embedding of `src/models.py` (BaseModel / ParameterGraphBuilder),
`src/sps.py` (ProspectorSPSBuilder / SynthesisBasisSelector and the
resolution matcher `_get_lsf`), together with theorems settling the spec
claims about them.

Conventions of the embedding:
* Python floats are modelled as exact rationals (`ℚ`); the only irrational
  operation in the code, `np.sqrt`, is modelled by `Real.sqrt` applied to a
  rational radicand.
* numpy boolean-mask filtering over parallel aligned arrays is modelled by
  `List.filter` / `List.map` over a single list of aligned tuples.
* The Python `dict` of model parameters is an association list with the
  exact CPython assignment semantics: assigning to an existing key replaces
  the value in place, assigning to a new key appends.
* The external `prospect` templates (`TemplateLibrary[...]`,
  `adjust_continuity_agebins`) are not part of this repository; they are
  abstracted as a `Templates` parameter of the builder.
-/

namespace EasyProspector

/-! ## Resolution matcher: `ProspectorSPSBuilder._get_lsf` (src/sps.py) -/

/-- The constant `lightspeed = 2.998e5` km/s, exactly as in `_get_lsf`. -/
def lightspeed : ℚ := 2.998e5

/-- The constant `miles_fwhm_aa = 2.54` Å, the MILES library nominal FWHM. -/
def miles_fwhm_aa : ℚ := 2.54

/-- Rest-frame conversion `wave_rest = wave_obs_clean / (1.0 + zred)`. -/
def restWave (zred w : ℚ) : ℚ := w / (1 + zred)

/-- The formula `sigma_v_lib = lightspeed * miles_fwhm_aa / (2.355 * wave_rest)`:
the MILES library resolution in velocity space at a rest wavelength. -/
def sigma_v_lib (waveRest : ℚ) : ℚ :=
  lightspeed * miles_fwhm_aa / (2.355 * waveRest)

/-- The radicand after clipping:
`np.clip(sigma_v_clean**2 - sigma_v_lib**2, 0, np.inf)`. -/
def clippedRad (sigmaInst sigmaLib : ℚ) : ℚ :=
  max (sigmaInst ^ 2 - sigmaLib ^ 2) 0

/-- The quantity `dsv = np.sqrt(np.clip(sigma_v_clean**2 - sigma_v_lib**2, 0, np.inf))`
at one pixel. -/
noncomputable def dsvAt (sigmaInst sigmaLib : ℚ) : ℝ :=
  Real.sqrt ((clippedRad sigmaInst sigmaLib : ℚ) : ℝ)

/-- The MILES validity mask of `_get_lsf`:
`(wave_rest > 3525.0) & (wave_rest < 7500.0)` — strict on both sides. -/
def inMilesDomain (waveRest : ℚ) : Bool :=
  decide (3525 < waveRest) && decide (waveRest < 7500)

/-- The computable core of `ProspectorSPSBuilder._get_lsf`, with the
parallel numpy arrays `wave_obs` / `sigma_v` modelled as one list of
aligned pairs: (1) drop pixels with `sigma_v <= 0`; rest-frame conversion;
(2) restrict to the MILES validity domain. Returns the surviving
(rest wavelength, instrumental σ) pairs. -/
def get_lsf_masked (zred : ℚ) (pixels : List (ℚ × ℚ)) : List (ℚ × ℚ) :=
  ((pixels.filter (fun p => decide (0 < p.2))).map
    (fun p => (restWave zred p.1, p.2))).filter (fun p => inMilesDomain p.1)

/-- The function `ProspectorSPSBuilder._get_lsf`: the masked pixels with the quadrature
difference `dsv` computed at each, i.e. the returned pair of arrays
`(wave_rest[valid_rest_wave], dsv[valid_rest_wave])` as a list of aligned
pairs (rest wavelength, Δσ). -/
noncomputable def get_lsf (zred : ℚ) (pixels : List (ℚ × ℚ)) :
    List (ℚ × ℝ) :=
  (get_lsf_masked zred pixels).map (fun p => (p.1, dsvAt p.2 (sigma_v_lib p.1)))

/-- Membership characterization of the masked pixels. -/
theorem mem_get_lsf_masked_iff (zred : ℚ) (pixels : List (ℚ × ℚ))
    (wr s : ℚ) :
    (wr, s) ∈ get_lsf_masked zred pixels ↔
      ∃ p ∈ pixels, 0 < p.2 ∧ p.2 = s ∧ wr = restWave zred p.1 ∧
        3525 < wr ∧ wr < 7500 := by
  simp only [get_lsf_masked, List.mem_filter, List.mem_map, inMilesDomain,
    Bool.and_eq_true, decide_eq_true_eq, Prod.mk.injEq]
  constructor
  · rintro ⟨⟨⟨w0, s0⟩, ⟨hw0, hs0⟩, h1, h2⟩, hlo, hhi⟩
    exact ⟨(w0, s0), hw0, hs0, h2, h1.symm, hlo, hhi⟩
  · rintro ⟨⟨w0, s0⟩, hmem, hs0, hs, hwr, hlo, hhi⟩
    exact ⟨⟨⟨w0, s0⟩, ⟨hmem, hs0⟩, hwr.symm, hs⟩, hlo, hhi⟩

/-- Membership characterization of `get_lsf`: `(wr, d)` is in the output
iff it arises from an input pixel with positive instrumental σ whose rest
wavelength falls strictly inside `(3525, 7500)`, and `d` is the clipped
quadrature difference there. -/
theorem mem_get_lsf_iff (zred : ℚ) (pixels : List (ℚ × ℚ)) (wr : ℚ) (d : ℝ) :
    (wr, d) ∈ get_lsf zred pixels ↔
      ∃ p ∈ pixels, 0 < p.2 ∧ wr = restWave zred p.1 ∧
        3525 < wr ∧ wr < 7500 ∧ d = dsvAt p.2 (sigma_v_lib wr) := by
  simp only [get_lsf, List.mem_map, Prod.mk.injEq]
  constructor
  · rintro ⟨⟨wr', s⟩, hmem, hwr, hd⟩
    obtain ⟨p, hp, hps, hseq, hpw, hlo, hhi⟩ :=
      (mem_get_lsf_masked_iff zred pixels wr' s).mp hmem
    subst hwr
    exact ⟨p, hp, hps, hpw, hlo, hhi, by rw [← hd, hseq]⟩
  · rintro ⟨p, hp, hps, hwr, hlo, hhi, hd⟩
    refine ⟨(wr, p.2), ?_, rfl, hd.symm⟩
    exact (mem_get_lsf_masked_iff zred pixels wr p.2).mpr
      ⟨p, hp, hps, rfl, hwr, hlo, hhi⟩

/-! ## Parameter graph data model (the `model_params` dict of src/models.py) -/

/-- A prior distribution specification, as built from `prospect.models.priors`
constructor calls in src/models.py. -/
inductive Prior
  | topHat (mini maxi : ℚ)
  | clippedNormal (mean sigma mini maxi : ℚ)
  | normal (mean sigma : ℚ)
deriving DecidableEq, Repr

/-- The `init` value of a model-parameter entry: a scalar float/int, a
Python bool, a string array (`np.array(valid_lines)`), or a numeric array
(`np.zeros(n_lines)`). -/
inductive InitVal
  | num (q : ℚ)
  | boolVal (b : Bool)
  | strArr (ss : List String)
  | numArr (qs : List ℚ)
deriving DecidableEq, Repr

/-- One entry of the `model_params` dict: the keys used by src/models.py. -/
structure ParamNode where
  N : Nat
  isfree : Bool
  init : Option InitVal := none
  units : Option String := none
  prior : Option Prior := none
  depends_on : Option String := none
deriving DecidableEq, Repr

/-- The `model_params` dict as an insertion-ordered association list. -/
abbrev Params := List (String × ParamNode)

/-- CPython dict assignment `d[k] = v`: replace in place when the key
exists, else append. -/
def setParam (ps : Params) (k : String) (v : ParamNode) : Params :=
  match ps with
  | [] => [(k, v)]
  | (k0, v0) :: rest =>
      if k0 = k then (k, v) :: rest else (k0, v0) :: setParam rest k v

/-- CPython `d.update(patch)`: assign each entry of the patch in order. -/
def updateParams (ps : Params) (patch : Params) : Params :=
  patch.foldl (fun acc kv => setParam acc kv.1 kv.2) ps

/-- In-place field mutation `d[k]["field"] = ...` of an existing entry
(`no-op` when the key is absent; the source only mutates keys the merged
template is known to provide). -/
def modifyParam (ps : Params) (k : String) (f : ParamNode → ParamNode) :
    Params :=
  ps.map (fun p => if p.1 = k then (p.1, f p.2) else p)

/-- Python `k in d` key-membership test. -/
def containsKey (ps : Params) (k : String) : Bool :=
  ps.any (fun p => p.1 == k)

theorem lookup_cons (k k0 : String) (v0 : ParamNode) (tl : Params) :
    List.lookup k ((k0, v0) :: tl) =
      if k = k0 then some v0 else List.lookup k tl := by
  by_cases h : k = k0
  · simp [List.lookup, h]
  · have hb : (k == k0) = false := beq_eq_false_iff_ne.mpr h
    simp [List.lookup, hb, h]

theorem lookup_setParam (ps : Params) (k k' : String) (v : ParamNode) :
    List.lookup k' (setParam ps k v) =
      if k' = k then some v else List.lookup k' ps := by
  induction ps with
  | nil => rw [show setParam [] k v = [(k, v)] from rfl, lookup_cons]
  | cons hd tl ih =>
      obtain ⟨k0, v0⟩ := hd
      by_cases h0 : k0 = k
      · subst h0
        have hs : setParam ((k0, v0) :: tl) k0 v = (k0, v) :: tl := by
          simp [setParam]
        rw [hs, lookup_cons, lookup_cons]
        by_cases h : k' = k0 <;> simp [h]
      · have hs : setParam ((k0, v0) :: tl) k v =
            (k0, v0) :: setParam tl k v := by
          simp [setParam, h0]
        rw [hs, lookup_cons]
        by_cases h1 : k' = k0
        · subst h1
          simp [lookup_cons, h0]
        · simp [lookup_cons, h1, ih]

theorem lookup_updateParams (ps : Params) (patch : Params) (k : String)
    (h : k ∉ patch.map Prod.fst) :
    List.lookup k (updateParams ps patch) = List.lookup k ps := by
  induction patch generalizing ps with
  | nil => simp [updateParams]
  | cons hd tl ih =>
      simp only [List.map_cons, List.mem_cons] at h
      push_neg at h
      have := ih (setParam ps hd.1 hd.2) h.2
      simp only [updateParams, List.foldl_cons] at this ⊢
      rw [this, lookup_setParam, if_neg h.1]

theorem keys_modifyParam (ps : Params) (k : String)
    (f : ParamNode → ParamNode) :
    (modifyParam ps k f).map Prod.fst = ps.map Prod.fst := by
  induction ps with
  | nil => rfl
  | cons hd tl ih =>
      obtain ⟨k0, v0⟩ := hd
      by_cases h0 : k0 = k <;> simp [modifyParam, h0] at ih ⊢ <;> exact ih

theorem lookup_modifyParam (ps : Params) (k k' : String)
    (f : ParamNode → ParamNode) (h : k' ≠ k) :
    List.lookup k' (modifyParam ps k f) = List.lookup k' ps := by
  induction ps with
  | nil => rfl
  | cons hd tl ih =>
      obtain ⟨k0, v0⟩ := hd
      by_cases h0 : k0 = k
      · subst h0
        have : modifyParam ((k0, v0) :: tl) k0 f =
            (k0, f v0) :: modifyParam tl k0 f := by
          simp [modifyParam]
        rw [this, lookup_cons, lookup_cons, if_neg h, if_neg h]
        exact ih
      · have : modifyParam ((k0, v0) :: tl) k f =
            (k0, v0) :: modifyParam tl k f := by
          simp [modifyParam, h0]
        rw [this, lookup_cons, lookup_cons]
        by_cases h1 : k' = k0 <;> simp [h1, ih]

theorem lookup_mem_keys {ps : Params} {k : String} {v : ParamNode}
    (h : List.lookup k ps = some v) : k ∈ ps.map Prod.fst := by
  induction ps with
  | nil => simp [List.lookup] at h
  | cons hd tl ih =>
      obtain ⟨k0, v0⟩ := hd
      rw [lookup_cons] at h
      by_cases h0 : k = k0
      · simp [h0]
      · rw [if_neg h0] at h
        simp [ih h]

theorem keys_setParam (ps : Params) (k : String) (v : ParamNode) :
    (setParam ps k v).map Prod.fst =
      if k ∈ ps.map Prod.fst then ps.map Prod.fst
      else ps.map Prod.fst ++ [k] := by
  induction ps with
  | nil => simp [setParam]
  | cons hd tl ih =>
      obtain ⟨k0, v0⟩ := hd
      by_cases h0 : k0 = k
      · subst h0
        simp [setParam]
      · simp only [setParam, if_neg h0, List.map_cons, ih, List.mem_cons]
        by_cases hm : k ∈ tl.map Prod.fst
        · simp [hm, Ne.symm h0]
        · simp [hm, Ne.symm h0]

/-- Keys of a dict stay `Nodup` under assignment. -/
theorem keysNodup_setParam {ps : Params} (k : String) (v : ParamNode)
    (h : (ps.map Prod.fst).Nodup) :
    ((setParam ps k v).map Prod.fst).Nodup := by
  rw [keys_setParam]
  by_cases hm : k ∈ ps.map Prod.fst
  · simpa [hm]
  · rw [if_neg hm]
    refine List.Nodup.append h (List.nodup_singleton k) ?_
    simpa [List.disjoint_singleton] using hm

theorem keysNodup_updateParams {ps : Params} (patch : Params)
    (h : (ps.map Prod.fst).Nodup) :
    ((updateParams ps patch).map Prod.fst).Nodup := by
  induction patch generalizing ps with
  | nil => simpa [updateParams]
  | cons hd tl ih =>
      simp only [updateParams, List.foldl_cons]
      exact ih (keysNodup_setParam hd.1 hd.2 h)

theorem keysNodup_modifyParam {ps : Params} (k : String)
    (f : ParamNode → ParamNode) (h : (ps.map Prod.fst).Nodup) :
    ((modifyParam ps k f).map Prod.fst).Nodup := by
  rw [keys_modifyParam]; exact h

/-- With `Nodup` keys, a key that is bound occurs exactly once. -/
theorem count_key_eq_one {ps : Params} {k : String} {v : ParamNode}
    (hn : (ps.map Prod.fst).Nodup) (h : List.lookup k ps = some v) :
    (ps.map Prod.fst).count k = 1 :=
  List.count_eq_one_of_mem hn (lookup_mem_keys h)

/-! ## Synthesis basis selector: `ProspectorSPSBuilder.build_sps` (src/sps.py) -/

/-- The two SPS basis variants (`FastStepBasis(zcontinuous=...)` /
`CSPSpecBasis(zcontinuous=...)`). -/
inductive SPSBasis
  | fastStepBasis (zcontinuous : Nat)
  | cspSpecBasis (zcontinuous : Nat)
deriving DecidableEq, Repr

/-- Observable outcome of `build_sps`: which basis object was built,
whether `_apply_smoothing` was invoked on it, and whether the
"add_sigmav requested but dispersion_file is None" info message was
logged instead. -/
structure SPSResult where
  basis : SPSBasis
  smoothingApplied : Bool
  lsfSkippedLogged : Bool
deriving DecidableEq, Repr

/-- The configuration switches consumed by the model builder and the SPS
builder (the relevant fields of `FitConfig`, src/config.py; `margin_elines`
and `fit_eline_redshift` are read with `getattr(..., False)` so an absent
attribute is the value `false`). -/
structure FitConfig where
  redshift : Option ℚ
  fixed_z : Bool
  nbins : Nat
  z_continuous : Nat
  add_nebular : Bool
  add_duste : Bool
  add_dust1 : Bool
  add_sigmav : Bool
  use_spectroscopy : Bool
  use_photometry : Bool
  fit_outliers_spec : Bool
  fit_outliers_photo : Bool
  margin_elines : Bool
  fit_eline_redshift : Bool
  lines : List (String × ℚ)
  dispersion_file : Option String
deriving DecidableEq, Repr

/-- The method `ProspectorSPSBuilder.build_sps`: select the basis from node presence
(`"agebins" in model_params` first, then `"tau"`), raise when neither is
present, then apply instrumental smoothing only when `add_sigmav` is set
and `"agebins"` is present, and within that only when `dispersion_file`
is not `None` (else log and skip). -/
def build_sps (c : FitConfig) (model_params : Params) :
    Except String SPSResult :=
  let zcont := c.z_continuous
  let sel : Option SPSBasis :=
    if containsKey model_params "agebins" then
      some (SPSBasis.fastStepBasis zcont)
    else if containsKey model_params "tau" then
      some (SPSBasis.cspSpecBasis zcont)
    else none
  match sel with
  | none => .error "Model parameters must include either agebins or tau."
  | some sps =>
      if c.add_sigmav && containsKey model_params "agebins" then
        if c.dispersion_file.isSome then
          .ok ⟨sps, true, false⟩
        else
          .ok ⟨sps, false, true⟩
      else .ok ⟨sps, false, false⟩

/-! ## Parameter graph builder: `BaseModel` (src/models.py) -/

/-- The external `prospect` template data merged by the builder.
`TemplateLibrary[...]` and `adjust_continuity_agebins` live in the external
`prospect` package, not in this repository; they are fixed data constants
from the builder's point of view, so the builder is parametrized over
them. -/
structure Templates where
  continuity_sfh : Params
  dust_emission : Params
  nebular : Params
  spectral_smoothing : Params
  optimize_speccal : Params
  nebular_marginalization : Params
  adjust_continuity_agebins : Params → ℚ → Nat → Params

/-- The `"logmass"` node of `_setup_sfh`. -/
def logmassNode : ParamNode :=
  { N := 1, isfree := true, init := some (.num 10.5),
    units := some "Solar masses formed", prior := some (.topHat 6.0 13.0) }

/-- The `"mass"` node of `_setup_sfh` (`Derived` via
`transforms.logsfr_ratios_to_masses`). -/
def massNode (nbins : Nat) : ParamNode :=
  { N := nbins, isfree := false, init := some (.num 1e6),
    units := some "Solar masses formed",
    depends_on := some "logsfr_ratios_to_masses" }

/-- The `"zred"` free variant (`fixed_z` false). -/
def zredFreeNode (z : ℚ) : ParamNode :=
  { N := 1, isfree := true, init := some (.num z),
    units := some "redshift",
    prior := some (.clippedNormal z 0.05 (z - 0.5) (z + 0.5)) }

/-- The `"zred"` fixed variant (`fixed_z` true). -/
def zredFixedNode (z : ℚ) : ParamNode :=
  { N := 1, isfree := false, init := some (.num z),
    units := some "redshift" }

/-- The method `BaseModel._setup_sfh`. -/
def setup_sfh (T : Templates) (c : FitConfig) (ps : Params) : Params :=
  let z : ℚ := c.redshift.getD 0
  let ps := updateParams ps T.continuity_sfh
  let ps := updateParams ps (T.adjust_continuity_agebins ps 13.7 c.nbins)
  let ps := setParam ps "logmass" logmassNode
  let ps := setParam ps "mass" (massNode c.nbins)
  if !c.fixed_z then setParam ps "zred" (zredFreeNode z)
  else setParam ps "zred" (zredFixedNode z)

/-- The method `BaseModel._setup_physical_params`. -/
def setup_physical_params (ps : Params) : Params :=
  let ps := setParam ps "logzsol"
    { N := 1, isfree := true, init := some (.num (-0.3)),
      units := some "log-solar metallicity",
      prior := some (.topHat (-2.0) 0.5) }
  setParam ps "imf_type"
    { N := 1, isfree := false, init := some (.num 1),
      units := some "FSPS index" }

/-- The method `BaseModel._setup_dust`. -/
def setup_dust (T : Templates) (c : FitConfig) (ps : Params) : Params :=
  let ps := setParam ps "dust_type"
    { N := 1, isfree := false, init := some (.num 4),
      units := some "FSPS index" }
  let ps := setParam ps "dust2"
    { N := 1, isfree := true, init := some (.num 0.5),
      units := some "optical depth at 5500AA",
      prior := some (.topHat 0.0 4.0) }
  let ps := setParam ps "dust_index"
    { N := 1, isfree := true, init := some (.num 0.0),
      prior := some (.clippedNormal 0.0 0.3 (-1.5) 0.4) }
  let ps :=
    if c.add_dust1 then
      let ps := setParam ps "dust1"
        { N := 1, isfree := false, init := some (.num 0.0),
          depends_on := some "dustratio_to_dust1" }
      setParam ps "dust1_fraction"
        { N := 1, isfree := true, init := some (.num 1.0),
          prior := some (.clippedNormal 1.0 0.3 0.0 2.0) }
    else ps
  if c.add_duste then
    let ps := updateParams ps T.dust_emission
    let ps := modifyParam ps "duste_gamma"
      (fun n => { n with isfree := true, prior := some (.topHat 0.0 1.0) })
    let ps := modifyParam ps "duste_qpah"
      (fun n => { n with isfree := true, prior := some (.topHat 0.5 10.0) })
    modifyParam ps "duste_umin"
      (fun n => { n with isfree := true, prior := some (.topHat 0.1 25.0) })
  else ps

/-- The `"eline_sigma"` node set by `_setup_nebular` (step 5 of the spec):
free, bounded-uniform over [50, 500], initial value 150 km/s. -/
def nebularElineSigmaNode : ParamNode :=
  { N := 1, isfree := true, init := some (.num 150),
    units := some "km/s", prior := some (.topHat 50 500) }

/-- The method `BaseModel._setup_nebular`. -/
def setup_nebular (T : Templates) (ps : Params) : Params :=
  let ps := updateParams ps T.nebular
  let ps := setParam ps "nebemlineinspec"
    { N := 1, isfree := false, init := some (.boolVal false) }
  let ps := setParam ps "gas_logz"
    { N := 1, isfree := true, init := some (.num 0.0),
      prior := some (.topHat (-2.0) 0.5) }
  let ps := setParam ps "gas_logu"
    { N := 1, isfree := true, init := some (.num (-2.0)),
      prior := some (.topHat (-4.0) (-1.0)) }
  setParam ps "eline_sigma" nebularElineSigmaNode

/-- The method `BaseModel._setup_spectroscopy`. -/
def setup_spectroscopy (T : Templates) (ps : Params) : Params :=
  let ps := updateParams ps T.spectral_smoothing
  let ps := setParam ps "sigma_smooth"
    { N := 1, isfree := true, init := some (.num 1000.0),
      units := some "km/s", prior := some (.topHat 200.0 2000.0) }
  let ps := updateParams ps T.optimize_speccal
  let ps := setParam ps "spec_norm"
    { N := 1, isfree := true, init := some (.num 1.0),
      prior := some (.normal 1.0 0.2) }
  let ps := setParam ps "spec_jitter"
    { N := 1, isfree := true, init := some (.num 1.0),
      prior := some (.topHat 0.0 5.0) }
  setParam ps "polyorder"
    { N := 1, isfree := false, init := some (.num 10) }

/-- The method `BaseModel._setup_outliers`. -/
def setup_outliers (c : FitConfig) (ps : Params) : Params :=
  let ps :=
    if c.fit_outliers_spec && c.use_spectroscopy then
      let ps := setParam ps "f_outlier_spec"
        { N := 1, isfree := true, init := some (.num 0.01),
          prior := some (.topHat 1e-5 0.2) }
      setParam ps "nsigma_outlier_spec"
        { N := 1, isfree := false, init := some (.num 50.0) }
    else ps
  if c.fit_outliers_photo && c.use_photometry then
    let ps := setParam ps "f_outlier_phot"
      { N := 1, isfree := true, init := some (.num 0.00),
        prior := some (.topHat 0 0.1) }
    setParam ps "nsigma_outlier_phot"
      { N := 1, isfree := false, init := some (.num 50.0) }
  else ps

/-- The `"eline_sigma"` node set by `_setup_line_marginalization`
(step 8 of the spec): free, bounded-uniform over [50, 1000], initial value
300 km/s — overwrites the nebular one. -/
def margElineSigmaNode : ParamNode :=
  { N := 1, isfree := true, init := some (.num 300),
    prior := some (.topHat 50 1000) }

/-- The exception message of the marginalization precondition check. -/
def margRequiresNebularMsg : String :=
  "Marginalization requires add_nebular=True"

/-- The warning printed when `margin_elines` is set but the line table is
empty. -/
def emptyLinesWarning : String :=
  "Warning: margin_elines=True but no lines found in config."

/-- The node-attaching tail of `_setup_line_marginalization` (reached when
`add_nebular` holds and the line table is non-empty): merge the
marginalization template, add `"elines_to_fit"`, overwrite
`"eline_sigma"`, and optionally add the per-line redshift offsets. -/
def margApply (T : Templates) (c : FitConfig) (ps : Params) : Params :=
  let valid_lines := c.lines.map Prod.fst
  let ps := updateParams ps T.nebular_marginalization
  let ps := setParam ps "elines_to_fit"
    { N := 1, isfree := false, init := some (.strArr valid_lines) }
  let ps := setParam ps "eline_sigma" margElineSigmaNode
  if c.fit_eline_redshift then
    let n_lines := valid_lines.length
    let ps := setParam ps "fit_eline_redshift"
      { N := 1, isfree := false, init := some (.boolVal true) }
    setParam ps "eline_delta_zred"
      { N := n_lines, isfree := true,
        init := some (.numArr (List.replicate n_lines 0)),
        prior := some (.topHat (-0.01) 0.01) }
  else ps

/-- The method `BaseModel._setup_line_marginalization`: raises when `add_nebular` is
false; warns and returns unchanged when the line table is empty; otherwise
attaches the marginalization nodes via `margApply`. Returns the updated
params together with the warnings printed. -/
def setup_line_marginalization (T : Templates) (c : FitConfig)
    (ps : Params) : Except String (Params × List String) :=
  if !c.add_nebular then .error margRequiresNebularMsg
  else if c.lines.isEmpty then .ok (ps, [emptyLinesWarning])
  else if (c.lines.map Prod.fst).isEmpty then .ok (ps, [])
  else .ok (margApply T c ps, [])

/-- Steps 1–6 of `BaseModel.__init__` (everything before the optional
line-marginalization step), starting from the empty dict. -/
def buildPre (T : Templates) (c : FitConfig) : Params :=
  let ps := setup_sfh T c []
  let ps := setup_physical_params ps
  let ps := setup_dust T c ps
  let ps := if c.add_nebular then setup_nebular T ps else ps
  let ps := if c.use_spectroscopy then setup_spectroscopy T ps else ps
  setup_outliers c ps

/-- The complete graph construction of `BaseModel.__init__`: the result is
either the exception raised or the final `model_params` dict together with
the warnings printed along the way. -/
def buildModel (T : Templates) (c : FitConfig) :
    Except String (Params × List String) :=
  if c.margin_elines then setup_line_marginalization T c (buildPre T c)
  else .ok (buildPre T c, [])

/-! ## Step-level lookup lemmas for the builder -/

theorem lookup_setup_sfh_zred (T : Templates) (c : FitConfig) (ps : Params) :
    List.lookup "zred" (setup_sfh T c ps) =
      some (if c.fixed_z then zredFixedNode (c.redshift.getD 0)
            else zredFreeNode (c.redshift.getD 0)) := by
  unfold setup_sfh
  by_cases hz : c.fixed_z <;> simp [hz, lookup_setParam]

theorem lookup_setup_sfh (T : Templates) (c : FitConfig) (ps : Params)
    (k : String)
    (h1 : k ≠ "logmass") (h2 : k ≠ "mass") (h3 : k ≠ "zred")
    (ht : k ∉ T.continuity_sfh.map Prod.fst)
    (ha : ∀ qs t n, k ∉ (T.adjust_continuity_agebins qs t n).map Prod.fst) :
    List.lookup k (setup_sfh T c ps) = List.lookup k ps := by
  unfold setup_sfh
  by_cases hz : c.fixed_z <;>
    simp [hz, lookup_setParam, h1, h2, h3,
      lookup_updateParams _ _ _ (ha _ _ _), lookup_updateParams _ _ _ ht]

theorem lookup_setup_physical_params (ps : Params) (k : String)
    (h1 : k ≠ "logzsol") (h2 : k ≠ "imf_type") :
    List.lookup k (setup_physical_params ps) = List.lookup k ps := by
  simp [setup_physical_params, lookup_setParam, h1, h2]

theorem lookup_setup_dust (T : Templates) (c : FitConfig) (ps : Params)
    (k : String)
    (h1 : k ≠ "dust_type") (h2 : k ≠ "dust2") (h3 : k ≠ "dust_index")
    (h4 : k ≠ "dust1") (h5 : k ≠ "dust1_fraction")
    (h6 : k ≠ "duste_gamma") (h7 : k ≠ "duste_qpah") (h8 : k ≠ "duste_umin")
    (ht : k ∉ T.dust_emission.map Prod.fst) :
    List.lookup k (setup_dust T c ps) = List.lookup k ps := by
  unfold setup_dust
  by_cases hd1 : c.add_dust1 <;> by_cases hde : c.add_duste <;>
    simp [hd1, hde, lookup_setParam, h1, h2, h3, h4, h5,
      lookup_modifyParam _ _ _ _ h6, lookup_modifyParam _ _ _ _ h7,
      lookup_modifyParam _ _ _ _ h8, lookup_updateParams _ _ _ ht]

theorem lookup_setup_nebular_eline (T : Templates) (ps : Params) :
    List.lookup "eline_sigma" (setup_nebular T ps) =
      some nebularElineSigmaNode := by
  simp [setup_nebular, lookup_setParam]

theorem lookup_setup_nebular (T : Templates) (ps : Params) (k : String)
    (h1 : k ≠ "nebemlineinspec") (h2 : k ≠ "gas_logz")
    (h3 : k ≠ "gas_logu") (h4 : k ≠ "eline_sigma")
    (ht : k ∉ T.nebular.map Prod.fst) :
    List.lookup k (setup_nebular T ps) = List.lookup k ps := by
  simp [setup_nebular, lookup_setParam, h1, h2, h3, h4,
    lookup_updateParams _ _ _ ht]

theorem lookup_setup_spectroscopy (T : Templates) (ps : Params) (k : String)
    (h1 : k ≠ "sigma_smooth") (h2 : k ≠ "spec_norm")
    (h3 : k ≠ "spec_jitter") (h4 : k ≠ "polyorder")
    (ht1 : k ∉ T.spectral_smoothing.map Prod.fst)
    (ht2 : k ∉ T.optimize_speccal.map Prod.fst) :
    List.lookup k (setup_spectroscopy T ps) = List.lookup k ps := by
  simp [setup_spectroscopy, lookup_setParam, h1, h2, h3, h4,
    lookup_updateParams _ _ _ ht1, lookup_updateParams _ _ _ ht2]

theorem lookup_setup_outliers (c : FitConfig) (ps : Params) (k : String)
    (h1 : k ≠ "f_outlier_spec") (h2 : k ≠ "nsigma_outlier_spec")
    (h3 : k ≠ "f_outlier_phot") (h4 : k ≠ "nsigma_outlier_phot") :
    List.lookup k (setup_outliers c ps) = List.lookup k ps := by
  unfold setup_outliers
  by_cases hs : c.fit_outliers_spec && c.use_spectroscopy <;>
    by_cases hp : c.fit_outliers_photo && c.use_photometry <;>
      simp [hs, hp, lookup_setParam, h1, h2, h3, h4]

/-- On a non-empty line table with `add_nebular` set, the marginalization
step succeeds with no warning and attaches the nodes via `margApply`. -/
theorem marg_ok_nonempty (T : Templates) (c : FitConfig) (ps : Params)
    (hn : c.add_nebular = true) (hl : c.lines ≠ []) :
    setup_line_marginalization T c ps = .ok (margApply T c ps, []) := by
  obtain ⟨a, as, hcons⟩ := List.exists_cons_of_ne_nil hl
  simp [setup_line_marginalization, hn, hcons]

theorem lookup_margApply_eline (T : Templates) (c : FitConfig)
    (ps : Params) :
    List.lookup "eline_sigma" (margApply T c ps) =
      some margElineSigmaNode := by
  unfold margApply
  by_cases hf : c.fit_eline_redshift <;> simp [hf, lookup_setParam]

theorem lookup_margApply_elines_to_fit (T : Templates) (c : FitConfig)
    (ps : Params) :
    List.lookup "elines_to_fit" (margApply T c ps) =
      some { N := 1, isfree := false,
             init := some (.strArr (c.lines.map Prod.fst)) } := by
  unfold margApply
  by_cases hf : c.fit_eline_redshift <;> simp [hf, lookup_setParam]

theorem lookup_margApply (T : Templates) (c : FitConfig) (ps : Params)
    (k : String)
    (h1 : k ≠ "elines_to_fit") (h2 : k ≠ "eline_sigma")
    (h3 : k ≠ "fit_eline_redshift") (h4 : k ≠ "eline_delta_zred")
    (ht : k ∉ T.nebular_marginalization.map Prod.fst) :
    List.lookup k (margApply T c ps) = List.lookup k ps := by
  unfold margApply
  by_cases hf : c.fit_eline_redshift <;>
    simp [hf, lookup_setParam, h1, h2, h3, h4,
      lookup_updateParams _ _ _ ht]

/-! ## Builder-level lookup lemmas -/

/-- The redshift node the builder installs, as a function of the config. -/
def zredNode (c : FitConfig) : ParamNode :=
  if c.fixed_z then zredFixedNode (c.redshift.getD 0)
  else zredFreeNode (c.redshift.getD 0)

/-- A key bound by none of the templates merged after the SFH step. -/
def FreshAfterSfh (T : Templates) (k : String) : Prop :=
  k ∉ T.dust_emission.map Prod.fst ∧ k ∉ T.nebular.map Prod.fst ∧
  k ∉ T.spectral_smoothing.map Prod.fst ∧
  k ∉ T.optimize_speccal.map Prod.fst ∧
  k ∉ T.nebular_marginalization.map Prod.fst

/-- A key bound by no template at all. -/
def FreshInTemplates (T : Templates) (k : String) : Prop :=
  k ∉ T.continuity_sfh.map Prod.fst ∧
  (∀ qs t n, k ∉ (T.adjust_continuity_agebins qs t n).map Prod.fst) ∧
  FreshAfterSfh T k

/-- Steps 2–6 of the builder leave a key alone when it is not one of
their explicitly assigned names and not bound by their templates. -/
theorem lookup_buildPre_post_sfh (T : Templates) (c : FitConfig)
    (k : String)
    (e1 : k ≠ "logzsol") (e2 : k ≠ "imf_type")
    (e3 : k ≠ "dust_type") (e4 : k ≠ "dust2") (e5 : k ≠ "dust_index")
    (e6 : k ≠ "dust1") (e7 : k ≠ "dust1_fraction")
    (e8 : k ≠ "duste_gamma") (e9 : k ≠ "duste_qpah") (e10 : k ≠ "duste_umin")
    (e11 : k ≠ "nebemlineinspec") (e12 : k ≠ "gas_logz")
    (e13 : k ≠ "gas_logu") (e14 : k ≠ "eline_sigma")
    (e15 : k ≠ "sigma_smooth") (e16 : k ≠ "spec_norm")
    (e17 : k ≠ "spec_jitter") (e18 : k ≠ "polyorder")
    (e19 : k ≠ "f_outlier_spec") (e20 : k ≠ "nsigma_outlier_spec")
    (e21 : k ≠ "f_outlier_phot") (e22 : k ≠ "nsigma_outlier_phot")
    (ht1 : k ∉ T.dust_emission.map Prod.fst)
    (ht2 : k ∉ T.nebular.map Prod.fst)
    (ht3 : k ∉ T.spectral_smoothing.map Prod.fst)
    (ht4 : k ∉ T.optimize_speccal.map Prod.fst) :
    List.lookup k (buildPre T c) = List.lookup k (setup_sfh T c []) := by
  unfold buildPre
  rw [lookup_setup_outliers c _ k e19 e20 e21 e22]
  by_cases hsp : c.use_spectroscopy <;> by_cases hne : c.add_nebular <;>
    simp only [hsp, hne, if_true, if_false, ite_true, ite_false,
      Bool.false_eq_true] <;>
    first
      | rw [lookup_setup_spectroscopy T _ k e15 e16 e17 e18 ht3 ht4,
          lookup_setup_nebular T _ k e11 e12 e13 e14 ht2,
          lookup_setup_dust T c _ k e3 e4 e5 e6 e7 e8 e9 e10 ht1,
          lookup_setup_physical_params _ k e1 e2]
      | rw [lookup_setup_spectroscopy T _ k e15 e16 e17 e18 ht3 ht4,
          lookup_setup_dust T c _ k e3 e4 e5 e6 e7 e8 e9 e10 ht1,
          lookup_setup_physical_params _ k e1 e2]
      | rw [lookup_setup_nebular T _ k e11 e12 e13 e14 ht2,
          lookup_setup_dust T c _ k e3 e4 e5 e6 e7 e8 e9 e10 ht1,
          lookup_setup_physical_params _ k e1 e2]
      | rw [lookup_setup_dust T c _ k e3 e4 e5 e6 e7 e8 e9 e10 ht1,
          lookup_setup_physical_params _ k e1 e2]

/-- The `"zred"` binding of the finished pre-marginalization graph. -/
theorem lookup_buildPre_zred (T : Templates) (c : FitConfig)
    (ht1 : "zred" ∉ T.dust_emission.map Prod.fst)
    (ht2 : "zred" ∉ T.nebular.map Prod.fst)
    (ht3 : "zred" ∉ T.spectral_smoothing.map Prod.fst)
    (ht4 : "zred" ∉ T.optimize_speccal.map Prod.fst) :
    List.lookup "zred" (buildPre T c) = some (zredNode c) := by
  rw [lookup_buildPre_post_sfh T c "zred"
    (by decide) (by decide) (by decide) (by decide) (by decide) (by decide)
    (by decide) (by decide) (by decide) (by decide) (by decide) (by decide)
    (by decide) (by decide) (by decide) (by decide) (by decide) (by decide)
    (by decide) (by decide) (by decide) (by decide) ht1 ht2 ht3 ht4,
    lookup_setup_sfh_zred]
  rfl

/-- With nebular emission enabled, the pre-marginalization graph binds
`"eline_sigma"` to the node of `_setup_nebular`. -/
theorem lookup_buildPre_eline (T : Templates) (c : FitConfig)
    (hn : c.add_nebular = true)
    (ht3 : "eline_sigma" ∉ T.spectral_smoothing.map Prod.fst)
    (ht4 : "eline_sigma" ∉ T.optimize_speccal.map Prod.fst) :
    List.lookup "eline_sigma" (buildPre T c) =
      some nebularElineSigmaNode := by
  unfold buildPre
  rw [lookup_setup_outliers c _ _ (by decide) (by decide) (by decide)
    (by decide)]
  by_cases hsp : c.use_spectroscopy <;>
    simp only [hsp, hn, if_true, if_false, ite_true, ite_false,
      Bool.false_eq_true] <;>
    first
      | rw [lookup_setup_spectroscopy T _ _ (by decide) (by decide)
          (by decide) (by decide) ht3 ht4, lookup_setup_nebular_eline]
      | rw [lookup_setup_nebular_eline]

/-- A key fresh everywhere and never explicitly assigned is absent from
the pre-marginalization graph. -/
theorem lookup_buildPre_none (T : Templates) (c : FitConfig) (k : String)
    (e0 : k ≠ "logmass") (e0' : k ≠ "mass") (e0'' : k ≠ "zred")
    (e1 : k ≠ "logzsol") (e2 : k ≠ "imf_type")
    (e3 : k ≠ "dust_type") (e4 : k ≠ "dust2") (e5 : k ≠ "dust_index")
    (e6 : k ≠ "dust1") (e7 : k ≠ "dust1_fraction")
    (e8 : k ≠ "duste_gamma") (e9 : k ≠ "duste_qpah") (e10 : k ≠ "duste_umin")
    (e11 : k ≠ "nebemlineinspec") (e12 : k ≠ "gas_logz")
    (e13 : k ≠ "gas_logu") (e14 : k ≠ "eline_sigma")
    (e15 : k ≠ "sigma_smooth") (e16 : k ≠ "spec_norm")
    (e17 : k ≠ "spec_jitter") (e18 : k ≠ "polyorder")
    (e19 : k ≠ "f_outlier_spec") (e20 : k ≠ "nsigma_outlier_spec")
    (e21 : k ≠ "f_outlier_phot") (e22 : k ≠ "nsigma_outlier_phot")
    (hfr : FreshInTemplates T k) :
    List.lookup k (buildPre T c) = none := by
  obtain ⟨hc, ha, ht1, ht2, ht3, ht4, _⟩ := hfr
  rw [lookup_buildPre_post_sfh T c k e1 e2 e3 e4 e5 e6 e7 e8 e9 e10 e11
    e12 e13 e14 e15 e16 e17 e18 e19 e20 e21 e22 ht1 ht2 ht3 ht4,
    lookup_setup_sfh T c [] k e0 e0' e0'' hc ha]
  rfl

/-! ## Key uniqueness through the builder -/

theorem keysNodup_setup_sfh (T : Templates) (c : FitConfig) {ps : Params}
    (h : (ps.map Prod.fst).Nodup) :
    ((setup_sfh T c ps).map Prod.fst).Nodup := by
  unfold setup_sfh
  by_cases hz : c.fixed_z <;> simp only [hz, Bool.not_true, Bool.not_false,
      Bool.false_eq_true, if_true, if_false, ite_true, ite_false] <;>
    exact keysNodup_setParam _ _ (keysNodup_setParam _ _
      (keysNodup_setParam _ _ (keysNodup_updateParams _
        (keysNodup_updateParams _ h))))

theorem keysNodup_setup_physical_params {ps : Params}
    (h : (ps.map Prod.fst).Nodup) :
    ((setup_physical_params ps).map Prod.fst).Nodup :=
  keysNodup_setParam _ _ (keysNodup_setParam _ _ h)

theorem keysNodup_setup_dust (T : Templates) (c : FitConfig) {ps : Params}
    (h : (ps.map Prod.fst).Nodup) :
    ((setup_dust T c ps).map Prod.fst).Nodup := by
  unfold setup_dust
  by_cases hd1 : c.add_dust1 <;> by_cases hde : c.add_duste <;>
    simp only [hd1, hde, Bool.false_eq_true, if_true, if_false,
      ite_true, ite_false] <;>
    first
      | exact keysNodup_modifyParam _ _ (keysNodup_modifyParam _ _
          (keysNodup_modifyParam _ _ (keysNodup_updateParams _
            (keysNodup_setParam _ _ (keysNodup_setParam _ _
              (keysNodup_setParam _ _ (keysNodup_setParam _ _
                (keysNodup_setParam _ _ h))))))))
      | exact keysNodup_setParam _ _ (keysNodup_setParam _ _
          (keysNodup_setParam _ _ (keysNodup_setParam _ _
            (keysNodup_setParam _ _ h))))
      | exact keysNodup_modifyParam _ _ (keysNodup_modifyParam _ _
          (keysNodup_modifyParam _ _ (keysNodup_updateParams _
            (keysNodup_setParam _ _ (keysNodup_setParam _ _
              (keysNodup_setParam _ _ h))))))
      | exact keysNodup_setParam _ _ (keysNodup_setParam _ _
          (keysNodup_setParam _ _ h))

theorem keysNodup_setup_nebular (T : Templates) {ps : Params}
    (h : (ps.map Prod.fst).Nodup) :
    ((setup_nebular T ps).map Prod.fst).Nodup :=
  keysNodup_setParam _ _ (keysNodup_setParam _ _ (keysNodup_setParam _ _
    (keysNodup_setParam _ _ (keysNodup_updateParams _ h))))

theorem keysNodup_setup_spectroscopy (T : Templates) {ps : Params}
    (h : (ps.map Prod.fst).Nodup) :
    ((setup_spectroscopy T ps).map Prod.fst).Nodup :=
  keysNodup_setParam _ _ (keysNodup_setParam _ _ (keysNodup_setParam _ _
    (keysNodup_updateParams _ (keysNodup_setParam _ _
      (keysNodup_updateParams _ h)))))

theorem keysNodup_setup_outliers (c : FitConfig) {ps : Params}
    (h : (ps.map Prod.fst).Nodup) :
    ((setup_outliers c ps).map Prod.fst).Nodup := by
  unfold setup_outliers
  by_cases hs : c.fit_outliers_spec && c.use_spectroscopy <;>
    by_cases hp : c.fit_outliers_photo && c.use_photometry <;>
      simp only [hs, hp, Bool.false_eq_true, if_true, if_false,
        ite_true, ite_false] <;>
      first
        | exact keysNodup_setParam _ _ (keysNodup_setParam _ _
            (keysNodup_setParam _ _ (keysNodup_setParam _ _ h)))
        | exact keysNodup_setParam _ _ (keysNodup_setParam _ _ h)
        | exact h

theorem keysNodup_buildPre (T : Templates) (c : FitConfig) :
    ((buildPre T c).map Prod.fst).Nodup := by
  unfold buildPre
  apply keysNodup_setup_outliers
  by_cases hsp : c.use_spectroscopy <;> by_cases hne : c.add_nebular <;>
    simp only [hsp, hne, Bool.false_eq_true, if_true, if_false,
      ite_true, ite_false] <;>
    first
      | exact keysNodup_setup_spectroscopy _ (keysNodup_setup_nebular _
          (keysNodup_setup_dust _ _ (keysNodup_setup_physical_params
            (keysNodup_setup_sfh _ _ List.nodup_nil))))
      | exact keysNodup_setup_spectroscopy _ (keysNodup_setup_dust _ _
          (keysNodup_setup_physical_params
            (keysNodup_setup_sfh _ _ List.nodup_nil)))
      | exact keysNodup_setup_nebular _ (keysNodup_setup_dust _ _
          (keysNodup_setup_physical_params
            (keysNodup_setup_sfh _ _ List.nodup_nil)))
      | exact keysNodup_setup_dust _ _ (keysNodup_setup_physical_params
          (keysNodup_setup_sfh _ _ List.nodup_nil))

theorem keysNodup_margApply (T : Templates) (c : FitConfig) {ps : Params}
    (h : (ps.map Prod.fst).Nodup) :
    ((margApply T c ps).map Prod.fst).Nodup := by
  unfold margApply
  by_cases hf : c.fit_eline_redshift <;>
    simp only [hf, Bool.false_eq_true, if_true, if_false,
      ite_true, ite_false] <;>
    first
      | exact keysNodup_setParam _ _ (keysNodup_setParam _ _
          (keysNodup_setParam _ _ (keysNodup_setParam _ _
            (keysNodup_updateParams _ h))))
      | exact keysNodup_setParam _ _ (keysNodup_setParam _ _
          (keysNodup_updateParams _ h))

/-! ## Claims about the resolution matcher -/

theorem length_filter_lt_of_mem {α : Type} {l : List α} {p : α → Bool}
    {x : α} (hx : x ∈ l) (hpx : p x = false) :
    (l.filter p).length < l.length := by
  induction l with
  | nil => cases hx
  | cons hd tl ih =>
      rcases List.mem_cons.mp hx with hx | hx
      · subst hx
        rw [List.filter_cons_of_neg (by simp [hpx])]
        exact Nat.lt_succ_of_le (List.length_filter_le p tl)
      · by_cases hp : p hd
        · rw [List.filter_cons_of_pos hp]
          exact Nat.succ_lt_succ (ih hx)
        · rw [List.filter_cons_of_neg hp]
          exact Nat.lt_succ_of_lt (ih hx)

/-- C3 counterexample: two pixels with positive instrumental σ whose
rest-frame wavelengths sit exactly on the endpoints 3525 Å and 7500 Å
(redshift 0) produce an empty kernel — the endpoints are dropped, not
retained. -/
theorem c3_endpoints_dropped :
    get_lsf 0 [(3525, 100), (7500, 100)] = [] := by
  rw [get_lsf, show get_lsf_masked 0 [(3525, 100), (7500, 100)] = []
    from by norm_num [get_lsf_masked, inMilesDomain, restWave, List.filter]]
  rfl

/-- C3 (amended): `_get_lsf` restricts the output to the OPEN interval
(3525, 7500): every output pixel has rest wavelength strictly inside it,
every surviving-σ input pixel strictly inside it is retained, and pixels
at or outside the endpoints are dropped. -/
theorem c3_open_domain_restriction (zred : ℚ) (pixels : List (ℚ × ℚ)) :
    (∀ q ∈ get_lsf zred pixels, 3525 < q.1 ∧ q.1 < 7500) ∧
    (∀ w s, (w, s) ∈ pixels → 0 < s → 3525 < restWave zred w →
      restWave zred w < 7500 →
      (restWave zred w, dsvAt s (sigma_v_lib (restWave zred w))) ∈
        get_lsf zred pixels) := by
  constructor
  · rintro ⟨wr, d⟩ hq
    obtain ⟨p, _, _, _, hlo, hhi, _⟩ :=
      (mem_get_lsf_iff zred pixels wr d).mp hq
    exact ⟨hlo, hhi⟩
  · intro w s hmem hs hlo hhi
    exact (mem_get_lsf_iff zred pixels _ _).mpr
      ⟨(w, s), hmem, hs, rfl, hlo, hhi, rfl⟩

/-- C4: every returned correction is `sqrt(max(0, σ_inst² − σ_lib²))`,
hence non-negative, and it is exactly 0 wherever the instrumental σ does
not exceed the library σ (the negative radicand is clipped before the
square root, not propagated). -/
theorem c4_quadrature_clipping (zred : ℚ) (pixels : List (ℚ × ℚ))
    (wr : ℚ) (d : ℝ) (hmem : (wr, d) ∈ get_lsf zred pixels) :
    0 ≤ d ∧
    ∃ p ∈ pixels, 0 < p.2 ∧
      d = Real.sqrt ((clippedRad p.2 (sigma_v_lib wr) : ℚ) : ℝ) ∧
      (p.2 ≤ sigma_v_lib wr → d = 0) := by
  obtain ⟨p, hp, hps, hwr, hlo, hhi, hd⟩ :=
    (mem_get_lsf_iff zred pixels wr d).mp hmem
  refine ⟨hd ▸ Real.sqrt_nonneg _, p, hp, hps, hd, ?_⟩
  intro hle
  have hrad : clippedRad p.2 (sigma_v_lib wr) = 0 := by
    rw [clippedRad, max_eq_right]
    exact sub_nonpos.mpr (pow_le_pow_left₀ hps.le hle 2)
  rw [hd, dsvAt, hrad]
  simp

/-- C6: every entry of the returned kernel originates from an input pixel
with strictly positive instrumental σ, and whenever some input pixel has
non-positive σ the output is strictly shorter than the input. -/
theorem c6_nonpositive_sigma_filtered (zred : ℚ)
    (pixels : List (ℚ × ℚ)) :
    (∀ q ∈ get_lsf zred pixels, ∃ p ∈ pixels, 0 < p.2 ∧
      q.1 = restWave zred p.1) ∧
    ((∃ p ∈ pixels, p.2 ≤ 0) →
      (get_lsf zred pixels).length < pixels.length) := by
  constructor
  · rintro ⟨wr, d⟩ hq
    obtain ⟨p, hp, hps, hwr, _, _, _⟩ :=
      (mem_get_lsf_iff zred pixels wr d).mp hq
    exact ⟨p, hp, hps, hwr⟩
  · rintro ⟨p, hp, hps⟩
    have h1 : (pixels.filter (fun p => decide (0 < p.2))).length <
        pixels.length :=
      length_filter_lt_of_mem hp (by simpa using not_lt.mpr hps)
    calc (get_lsf zred pixels).length
        = (get_lsf_masked zred pixels).length := by
          rw [get_lsf, List.length_map]
      _ ≤ ((pixels.filter (fun p => decide (0 < p.2))).map
            (fun p => (restWave zred p.1, p.2))).length := by
          rw [get_lsf_masked]
          exact List.length_filter_le _ _
      _ = (pixels.filter (fun p => decide (0 < p.2))).length :=
          List.length_map _ _
      _ < pixels.length := h1

/-- Witness for C4 at a concrete pixel: rest wavelength 4000 Å, σ_inst = 1
km/s (below the MILES σ there), kernel value exactly 0. -/
theorem c4_witness :
    (0:ℝ) ≤ dsvAt 1 (sigma_v_lib 4000) ∧
      dsvAt 1 (sigma_v_lib 4000) = 0 := by
  have hmem : ((4000:ℚ), dsvAt 1 (sigma_v_lib 4000)) ∈
      get_lsf 0 [((4000:ℚ), (1:ℚ))] := by
    rw [get_lsf, show get_lsf_masked 0 [((4000:ℚ), (1:ℚ))] =
      [((4000:ℚ), (1:ℚ))] from by
        norm_num [get_lsf_masked, inMilesDomain, restWave, List.filter]]
    simp [List.mem_map, restWave]
  have h := c4_quadrature_clipping 0 [((4000:ℚ), (1:ℚ))] 4000
    (dsvAt 1 (sigma_v_lib 4000)) hmem
  obtain ⟨hnn, p, hp, hps, hd, himp⟩ := h
  have hpe : p = ((4000:ℚ), (1:ℚ)) := by simpa using hp
  subst hpe
  exact ⟨hnn, himp (by rw [show sigma_v_lib 4000 =
    299800 * (127/50) / (471/200 * 4000) from by
      norm_num [sigma_v_lib, lightspeed, miles_fwhm_aa]]; norm_num)⟩

/-- Witness for C3 (amended) at a concrete pixel strictly inside the
domain. -/
theorem c3_witness :
    ((4500:ℚ), dsvAt 200 (sigma_v_lib 4500)) ∈
        get_lsf 0 [((4500:ℚ), (200:ℚ))] ∧
      3525 < (4500:ℚ) ∧ (4500:ℚ) < 7500 := by
  have hw : restWave 0 4500 = (4500:ℚ) := by
    norm_num [restWave]
  have h2 := (c3_open_domain_restriction 0 [((4500:ℚ), (200:ℚ))]).2
    4500 200 (by simp) (by norm_num) (by rw [hw]; norm_num)
    (by rw [hw]; norm_num)
  rw [hw] at h2
  exact ⟨h2, by norm_num, by norm_num⟩

/-- Witness for C6: an input with one positive-σ pixel and one
non-positive-σ pixel yields a strictly shorter output. -/
theorem c6_witness :
    (get_lsf 0 [((4000:ℚ), (200:ℚ)), ((5000:ℚ), (0:ℚ))]).length <
      ([((4000:ℚ), (200:ℚ)), ((5000:ℚ), (0:ℚ))] :
        List (ℚ × ℚ)).length :=
  (c6_nonpositive_sigma_filtered 0 _).2
    ⟨((5000:ℚ), (0:ℚ)), by simp, le_refl 0⟩

/-! ## Claims about the synthesis basis selector -/

theorem build_sps_eq_agebins (c : FitConfig) (mp : Params)
    (hab : containsKey mp "agebins" = true) :
    build_sps c mp =
      (if c.add_sigmav then
        (if c.dispersion_file.isSome then
          .ok ⟨.fastStepBasis c.z_continuous, true, false⟩
        else .ok ⟨.fastStepBasis c.z_continuous, false, true⟩)
      else .ok ⟨.fastStepBasis c.z_continuous, false, false⟩) := by
  unfold build_sps
  rw [hab]
  simp

theorem build_sps_eq_tau (c : FitConfig) (mp : Params)
    (hab : containsKey mp "agebins" = false)
    (htau : containsKey mp "tau" = true) :
    build_sps c mp = .ok ⟨.cspSpecBasis c.z_continuous, false, false⟩ := by
  unfold build_sps
  rw [hab, htau]
  simp

theorem build_sps_eq_neither (c : FitConfig) (mp : Params)
    (hab : containsKey mp "agebins" = false)
    (htau : containsKey mp "tau" = false) :
    build_sps c mp =
      .error "Model parameters must include either agebins or tau." := by
  unfold build_sps
  rw [hab, htau]
  simp

/-- C5: basis selection inspects node presence only: `"agebins"` present →
non-parametric basis (even when `"tau"` is also present); else `"tau"`
present → parametric basis; neither → error. -/
theorem c5_basis_selection (c : FitConfig) (mp : Params) :
    (containsKey mp "agebins" = true →
      ∃ r, build_sps c mp = .ok r ∧
        r.basis = .fastStepBasis c.z_continuous) ∧
    (containsKey mp "agebins" = false → containsKey mp "tau" = true →
      ∃ r, build_sps c mp = .ok r ∧
        r.basis = .cspSpecBasis c.z_continuous) ∧
    (containsKey mp "agebins" = false → containsKey mp "tau" = false →
      build_sps c mp =
        .error "Model parameters must include either agebins or tau.") := by
  refine ⟨?_, ?_, ?_⟩
  · intro hab
    rw [build_sps_eq_agebins c mp hab]
    by_cases hs : c.add_sigmav <;>
      by_cases hd : c.dispersion_file.isSome <;>
        simp [hs, hd]
  · intro hab htau
    exact ⟨_, build_sps_eq_tau c mp hab htau, rfl⟩
  · intro hab htau
    exact build_sps_eq_neither c mp hab htau

/-- C10: `_apply_smoothing` runs exactly when `add_sigmav` is set, the
`"agebins"` node is present, and a dispersion-file path is configured; a
parametric (tau) basis never receives a kernel; a `None` dispersion file
is logged and skipped, not an error. -/
theorem c10_smoothing_gating (c : FitConfig) (mp : Params) (r : SPSResult)
    (hok : build_sps c mp = .ok r) :
    (r.smoothingApplied = true ↔
      (c.add_sigmav = true ∧ containsKey mp "agebins" = true ∧
        c.dispersion_file.isSome = true)) ∧
    (∀ zc, r.basis = .cspSpecBasis zc → r.smoothingApplied = false) ∧
    (c.add_sigmav = true → containsKey mp "agebins" = true →
      c.dispersion_file = none →
      r.smoothingApplied = false ∧ r.lsfSkippedLogged = true) := by
  by_cases hab : containsKey mp "agebins"
  · rw [build_sps_eq_agebins c mp hab] at hok
    by_cases hs : c.add_sigmav <;>
      by_cases hd : c.dispersion_file.isSome <;>
        simp only [hs, hd, if_true, if_false, ite_true, ite_false,
          Bool.false_eq_true] at hok <;>
        (injection hok with h; subst h) <;>
        refine ⟨by simp [hs, hab, hd], fun zc h => by simp at h,
          fun h1 h2 h3 => ?_⟩ <;>
        first
          | exact ⟨rfl, rfl⟩
          | exact absurd h1 hs
          | (rw [h3] at hd; simp at hd)
  · have hab' : containsKey mp "agebins" = false := by
      simpa using hab
    by_cases htau : containsKey mp "tau"
    · rw [build_sps_eq_tau c mp hab' htau] at hok
      injection hok with h
      subst h
      exact ⟨by simp [hab'], fun zc _ => rfl,
        fun h1 h2 h3 => absurd h2 hab⟩
    · have htau' : containsKey mp "tau" = false := by simpa using htau
      rw [build_sps_eq_neither c mp hab' htau'] at hok
      exact Except.noConfusion hok

/-! ## Claims about the parameter graph builder -/

/-- With `add_nebular` set, the marginalization step never raises. -/
theorem marg_ok_of_nebular (T : Templates) (c : FitConfig) (ps : Params)
    (hn : c.add_nebular = true) :
    ∃ r, setup_line_marginalization T c ps = .ok r := by
  unfold setup_line_marginalization
  rw [hn]
  by_cases h1 : c.lines.isEmpty <;>
    by_cases h2 : (c.lines.map Prod.fst).isEmpty <;>
      simp [h1, h2]

/-- C1: for every config with `add_nebular`, `margin_elines` and a
non-empty line table, construction succeeds and the final
`"eline_sigma"` node is the one set by the line-marginalization patch
(free, bounded-uniform over [50, 1000], initial 300), overwriting the
nebular-emission one (bounded-uniform over [50, 500], initial 150):
the last patch wins. -/
theorem c1_last_patch_wins_eline_sigma (T : Templates) (c : FitConfig)
    (hn : c.add_nebular = true) (hm : c.margin_elines = true)
    (hl : c.lines ≠ [])
    (ht3 : "eline_sigma" ∉ T.spectral_smoothing.map Prod.fst)
    (ht4 : "eline_sigma" ∉ T.optimize_speccal.map Prod.fst) :
    ∃ ps', buildModel T c = .ok (ps', []) ∧
      List.lookup "eline_sigma" ps' = some margElineSigmaNode ∧
      List.lookup "eline_sigma" (buildPre T c) =
        some nebularElineSigmaNode ∧
      margElineSigmaNode =
        { N := 1, isfree := true, init := some (.num 300),
          prior := some (.topHat 50 1000) } ∧
      nebularElineSigmaNode =
        { N := 1, isfree := true, init := some (.num 150),
          units := some "km/s", prior := some (.topHat 50 500) } := by
  refine ⟨margApply T c (buildPre T c), ?_,
    lookup_margApply_eline T c _,
    lookup_buildPre_eline T c hn ht3 ht4, rfl, rfl⟩
  unfold buildModel
  rw [hm]
  simpa using marg_ok_nonempty T c (buildPre T c) hn hl

/-- C2: `margin_elines` with `add_nebular` false makes construction raise,
and this is the only exception the builder raises — every error outcome of
`buildModel` is exactly this one. -/
theorem c2_margin_requires_nebular (T : Templates) (c : FitConfig) :
    (c.margin_elines = true → c.add_nebular = false →
      buildModel T c = .error margRequiresNebularMsg) ∧
    (∀ e, buildModel T c = .error e →
      c.margin_elines = true ∧ c.add_nebular = false ∧
      e = margRequiresNebularMsg) := by
  constructor
  · intro hm hn
    unfold buildModel setup_line_marginalization
    rw [hm, hn]
    simp
  · intro e he
    by_cases hm : c.margin_elines
    · unfold buildModel at he
      rw [hm] at he
      simp only [if_true, ite_true] at he
      by_cases hn : c.add_nebular
      · obtain ⟨r, hr⟩ := marg_ok_of_nebular T c (buildPre T c) hn
        rw [hr] at he
        exact Except.noConfusion he
      · have hn' : c.add_nebular = false := by simpa using hn
        unfold setup_line_marginalization at he
        rw [hn'] at he
        simp only [Bool.not_false, if_true, ite_true] at he
        injection he with h
        exact ⟨hm, hn', h.symm⟩
    · unfold buildModel at he
      have hm' : c.margin_elines = false := by simpa using hm
      rw [hm'] at he
      simp at he

/-- C7: `margin_elines` with `add_nebular` and an empty line table
completes without raising, prints the warning, and attaches nothing: the
graph is exactly the pre-marginalization graph, with no
`"elines_to_fit"` node and `"eline_sigma"` still the nebular node. -/
theorem c7_empty_lines_graceful (T : Templates) (c : FitConfig)
    (hm : c.margin_elines = true) (hn : c.add_nebular = true)
    (hl : c.lines = [])
    (hfr : FreshInTemplates T "elines_to_fit")
    (ht3 : "eline_sigma" ∉ T.spectral_smoothing.map Prod.fst)
    (ht4 : "eline_sigma" ∉ T.optimize_speccal.map Prod.fst) :
    buildModel T c = .ok (buildPre T c, [emptyLinesWarning]) ∧
    List.lookup "elines_to_fit" (buildPre T c) = none ∧
    List.lookup "eline_sigma" (buildPre T c) =
      some nebularElineSigmaNode := by
  refine ⟨?_, ?_, lookup_buildPre_eline T c hn ht3 ht4⟩
  · unfold buildModel setup_line_marginalization
    rw [hm, hn, hl]
    simp
  · exact lookup_buildPre_none T c _ (by decide) (by decide) (by decide)
      (by decide) (by decide) (by decide) (by decide) (by decide)
      (by decide) (by decide) (by decide) (by decide) (by decide)
      (by decide) (by decide) (by decide) (by decide) (by decide)
      (by decide) (by decide) (by decide) (by decide) (by decide)
      (by decide) (by decide) hfr

/-- C9: graph construction is a pure, deterministic function of the
config: equal configs give identical results (node keys, statuses, numeric
fields, dependency references — the entire graph and warning list). -/
theorem c9_builder_deterministic (T : Templates) (c1 c2 : FitConfig)
    (h : c1 = c2) : buildModel T c1 = buildModel T c2 := by
  rw [h]

/-- C8: whenever construction succeeds, the graph binds `"zred"` exactly
once: free with a clipped-normal prior (mean = estimate or 0, σ = 0.05,
bounds estimate ± 0.5) when `fixed_z` is false, else fixed at the estimate
with no prior. -/
theorem c8_zred_node (T : Templates) (c : FitConfig) (ps' : Params)
    (w : List String) (hok : buildModel T c = .ok (ps', w))
    (hfr : FreshAfterSfh T "zred") :
    List.lookup "zred" ps' = some (zredNode c) ∧
    (ps'.map Prod.fst).count "zred" = 1 ∧
    zredNode c =
      (if c.fixed_z then
        { N := 1, isfree := false,
          init := some (.num (c.redshift.getD 0)),
          units := some "redshift" }
      else
        { N := 1, isfree := true,
          init := some (.num (c.redshift.getD 0)),
          units := some "redshift",
          prior := some (.clippedNormal (c.redshift.getD 0) 0.05
            (c.redshift.getD 0 - 0.5) (c.redshift.getD 0 + 0.5)) }) := by
  obtain ⟨ht1, ht2, ht3, ht4, ht5⟩ := hfr
  have hpre : List.lookup "zred" (buildPre T c) = some (zredNode c) :=
    lookup_buildPre_zred T c ht1 ht2 ht3 ht4
  have hps : List.lookup "zred" ps' = some (zredNode c) ∧
      ((ps').map Prod.fst).Nodup := by
    by_cases hm : c.margin_elines
    · unfold buildModel at hok
      rw [hm] at hok
      simp only [if_true, ite_true] at hok
      by_cases hn : c.add_nebular
      · by_cases hl : c.lines = []
        · unfold setup_line_marginalization at hok
          rw [hn, hl] at hok
          simp only [Bool.not_true, Bool.false_eq_true, if_false,
            ite_false, List.isEmpty_nil, if_true, ite_true] at hok
          injection hok with h
          injection h with h1 h2
          subst h1
          exact ⟨hpre, keysNodup_buildPre T c⟩
        · rw [marg_ok_nonempty T c (buildPre T c) hn hl] at hok
          injection hok with h
          injection h with h1 h2
          subst h1
          refine ⟨?_, keysNodup_margApply T c (keysNodup_buildPre T c)⟩
          rw [lookup_margApply T c _ _ (by decide) (by decide) (by decide)
            (by decide) ht5]
          exact hpre
      · have hn' : c.add_nebular = false := by simpa using hn
        unfold setup_line_marginalization at hok
        rw [hn'] at hok
        simp only [Bool.not_false, if_true, ite_true] at hok
        exact Except.noConfusion hok
    · unfold buildModel at hok
      have hm' : c.margin_elines = false := by simpa using hm
      rw [hm'] at hok
      simp only [Bool.false_eq_true, if_false, ite_false] at hok
      injection hok with h
      injection h with h1 h2
      subst h1
      exact ⟨hpre, keysNodup_buildPre T c⟩
  refine ⟨hps.1, count_key_eq_one hps.2 hps.1, ?_⟩
  by_cases hz : c.fixed_z <;>
    simp [hz, zredNode, zredFreeNode, zredFixedNode]

/-! ## Concrete instances for witnesses -/

/-- A concrete stand-in for the external `prospect` template data, with
the node names the real templates provide. -/
def sampleTemplates : Templates :=
  { continuity_sfh :=
      [("agebins",
        { N := 4, isfree := false, init := some (.numArr [0, 8, 9, 10]) }),
       ("logsfr_ratios",
        { N := 3, isfree := true, init := some (.numArr [0, 0, 0]),
          prior := some (.normal 0 1) }),
       ("tage",
        { N := 1, isfree := false, init := some (.num 1) })],
    dust_emission :=
      [("duste_gamma",
        { N := 1, isfree := false, init := some (.num 0.01) }),
       ("duste_qpah",
        { N := 1, isfree := false, init := some (.num 2) }),
       ("duste_umin",
        { N := 1, isfree := false, init := some (.num 1) })],
    nebular :=
      [("add_neb_emission",
        { N := 1, isfree := false, init := some (.boolVal true) }),
       ("add_neb_continuum",
        { N := 1, isfree := false, init := some (.boolVal true) })],
    spectral_smoothing :=
      [("smoothtype",
        { N := 1, isfree := false, init := some (.num 0) }),
       ("fftsmooth",
        { N := 1, isfree := false, init := some (.boolVal true) })],
    optimize_speccal :=
      [("polyorder",
        { N := 1, isfree := false, init := some (.num 2) })],
    nebular_marginalization :=
      [("marginalize_elines",
        { N := 1, isfree := false, init := some (.boolVal true) }),
       ("use_eline_prior",
        { N := 1, isfree := false, init := some (.boolVal false) })],
    adjust_continuity_agebins := fun _ _ n =>
      [("agebins", { N := n, isfree := false })] }

/-- A concrete config: nebular on, marginalization on, one line. -/
def sampleConfig : FitConfig :=
  { redshift := some 0.5, fixed_z := false, nbins := 4, z_continuous := 1,
    add_nebular := true, add_duste := true, add_dust1 := true,
    add_sigmav := true, use_spectroscopy := true, use_photometry := true,
    fit_outliers_spec := false, fit_outliers_photo := false,
    margin_elines := true, fit_eline_redshift := false,
    lines := [("OIII", 5007)], dispersion_file := some "disp.fits" }

/-- Variant of `sampleConfig` with marginalization off. -/
def sampleConfigNoMargin : FitConfig :=
  { sampleConfig with margin_elines := false }

/-- Variant of `sampleConfig` with marginalization on but nebular emission off. -/
def sampleConfigNoNebular : FitConfig :=
  { sampleConfig with add_nebular := false }

/-- Variant of `sampleConfig` with an empty line table. -/
def sampleConfigNoLines : FitConfig :=
  { sampleConfig with lines := [] }

/-- Variant of `sampleConfig` with no dispersion file. -/
def sampleConfigNoDisp : FitConfig :=
  { sampleConfig with dispersion_file := none }

/-- A concrete parameter dict holding both a bin-edge and an
analytic-timescale node. -/
def sampleParamsBoth : Params :=
  [("agebins",
    { N := 4, isfree := false, init := some (.numArr [0, 8, 9, 10]) }),
   ("tau",
    { N := 1, isfree := true, init := some (.num 1),
      prior := some (.topHat 0.1 30) })]

/-- Witness for C1 at the sample config. -/
theorem c1_witness :
    ∃ ps', buildModel sampleTemplates sampleConfig = .ok (ps', []) ∧
      List.lookup "eline_sigma" ps' = some margElineSigmaNode ∧
      List.lookup "eline_sigma" (buildPre sampleTemplates sampleConfig) =
        some nebularElineSigmaNode ∧
      margElineSigmaNode =
        { N := 1, isfree := true, init := some (.num 300),
          prior := some (.topHat 50 1000) } ∧
      nebularElineSigmaNode =
        { N := 1, isfree := true, init := some (.num 150),
          units := some "km/s", prior := some (.topHat 50 500) } :=
  c1_last_patch_wins_eline_sigma sampleTemplates sampleConfig rfl rfl
    (by decide) (by decide) (by decide)

/-- Witness for C2 at the sample config with nebular emission off. -/
theorem c2_witness :
    buildModel sampleTemplates sampleConfigNoNebular =
      .error margRequiresNebularMsg :=
  (c2_margin_requires_nebular sampleTemplates sampleConfigNoNebular).1
    rfl rfl

/-- Witness for C5: when both nodes are present the non-parametric basis
wins. -/
theorem c5_witness :
    ∃ r, build_sps sampleConfig sampleParamsBoth = .ok r ∧
      r.basis = .fastStepBasis sampleConfig.z_continuous :=
  (c5_basis_selection sampleConfig sampleParamsBoth).1 (by decide)

/-- Witness for C7 at the sample config with an empty line table. -/
theorem c7_witness :
    buildModel sampleTemplates sampleConfigNoLines =
      .ok (buildPre sampleTemplates sampleConfigNoLines,
        [emptyLinesWarning]) ∧
    List.lookup "elines_to_fit"
      (buildPre sampleTemplates sampleConfigNoLines) = none ∧
    List.lookup "eline_sigma"
      (buildPre sampleTemplates sampleConfigNoLines) =
      some nebularElineSigmaNode :=
  c7_empty_lines_graceful sampleTemplates sampleConfigNoLines rfl rfl rfl
    ⟨by decide,
      fun qs t n => by
        show "elines_to_fit" ∉ ["agebins"]
        decide,
      by decide, by decide, by decide, by decide, by decide⟩
    (by decide) (by decide)

/-- Witness for C8 at the sample config with marginalization off. -/
theorem c8_witness :
    List.lookup "zred" (buildPre sampleTemplates sampleConfigNoMargin) =
      some (zredNode sampleConfigNoMargin) ∧
    ((buildPre sampleTemplates sampleConfigNoMargin).map
      Prod.fst).count "zred" = 1 ∧
    zredNode sampleConfigNoMargin =
      (if sampleConfigNoMargin.fixed_z then
        { N := 1, isfree := false,
          init := some (.num (sampleConfigNoMargin.redshift.getD 0)),
          units := some "redshift" }
      else
        { N := 1, isfree := true,
          init := some (.num (sampleConfigNoMargin.redshift.getD 0)),
          units := some "redshift",
          prior := some (.clippedNormal
            (sampleConfigNoMargin.redshift.getD 0) 0.05
            (sampleConfigNoMargin.redshift.getD 0 - 0.5)
            (sampleConfigNoMargin.redshift.getD 0 + 0.5)) }) :=
  c8_zred_node sampleTemplates sampleConfigNoMargin
    (buildPre sampleTemplates sampleConfigNoMargin) [] rfl
    ⟨by decide, by decide, by decide, by decide, by decide⟩

/-- Witness for C9 at the sample config. -/
theorem c9_witness :
    buildModel sampleTemplates sampleConfig =
      buildModel sampleTemplates sampleConfig :=
  c9_builder_deterministic sampleTemplates sampleConfig sampleConfig rfl

/-- Witness for C10: resolution flag set, bin-edge node present, no
dispersion file — smoothing skipped with a log message, no error. -/
theorem c10_witness :
    ({ basis := .fastStepBasis 1, smoothingApplied := false,
       lsfSkippedLogged := true } : SPSResult).smoothingApplied = false ∧
    ({ basis := .fastStepBasis 1, smoothingApplied := false,
       lsfSkippedLogged := true } : SPSResult).lsfSkippedLogged = true :=
  (c10_smoothing_gating sampleConfigNoDisp sampleParamsBoth
    { basis := .fastStepBasis 1, smoothingApplied := false,
      lsfSkippedLogged := true } rfl).2.2 rfl rfl rfl

end EasyProspector
